import Mathlib

/-!
Verification of the extraction-and-quality-gating core of the EnergyGauge
automation suite (src/code/energy_gauge_automation.py), as a shallow
embedding in Lean 4.

Modelling conventions:
* JSON values are the inductive type `EG.Json`; Python dicts are ordered
  association lists (insertion order preserved, as in Python 3.7+).
* Python floats are embedded as rationals `ℚ`; the decision logic of the
  program is purely order-theoretic, so no rounding behaviour is modelled.
* File-system access, the MD5 digest and the two OCR backends are passed
  in as explicit function/value parameters: `fsExists : String → Bool`
  (os.path.exists), `fileHash : String → String` (DuplicateDetector.
  calculate_hash, whose result on IO failure is ""), `md5 : String →
  String` (hashlib.md5(...).hexdigest()), and engine outcome values.
* Fallible operations return `Option`; methods that never raise are total
  functions.
-/

namespace EG

/-- ASCII lower-casing; Python str.lower on the ASCII texts this program
handles. (Lean's String.toLower is not kernel-reducible, so the map is
done on the character list.) -/
def pyLower (s : String) : String := String.mk (s.data.map Char.toLower)

/-- ASCII upper-casing; Python str.upper on the ASCII status strings this
program handles. -/
def pyUpper (s : String) : String := String.mk (s.data.map Char.toUpper)

/-- JSON values: the data model of one input record
(src/code/energy_gauge_automation.py works on dicts loaded by json.load).
Objects are ordered association lists, like Python dicts. -/
inductive Json where
  | null : Json
  | bool : Bool → Json
  | num : ℚ → Json
  | str : String → Json
  | arr : List Json → Json
  | obj : List (String × Json) → Json

/-- Python `d.get(k)` / `d[k]` on a dict modelled as an association list. -/
def getKey : List (String × Json) → String → Option Json
  | [], _ => none
  | e :: t, k => if e.1 == k then some e.2 else getKey t k

/-- Python `d[k] = v`: replace the value in place if the key is present
(keeping its position), append the entry otherwise. -/
def setKey : List (String × Json) → String → Json → List (String × Json)
  | [], k, v => [(k, v)]
  | e :: t, k, v => if e.1 == k then (k, v) :: setKey t k v else e :: setKey t k v

/-- Python `d.pop(k, None)` restricted to its effect on the remaining
dict: drop the entry with key `k`. -/
def popKey (l : List (String × Json)) (k : String) : List (String × Json) :=
  l.filter (fun e => !(e.1 == k))

/-- Python truthiness of a JSON value (`if value:` / `not value`). -/
def jTruthy : Json → Bool
  | Json.null => false
  | Json.bool b => b
  | Json.num q => !(q == 0)
  | Json.str s => !(s == "")
  | Json.arr l => !l.isEmpty
  | Json.obj l => !l.isEmpty

/-- Whether key `k` is present in the dict with a truthy value:
Python `k in d and d[k]`. -/
def truthyKey (l : List (String × Json)) (k : String) : Bool :=
  match getKey l k with
  | some v => jTruthy v
  | none => false

/-- Code-point comparison of strings, the order used by Python
`sorted`/`sort_keys=True` on ASCII keys (kernel-reducible, unlike Lean's
built-in String order). -/
def charListLe : List Char → List Char → Bool
  | [], _ => true
  | _ :: _, [] => false
  | a :: as, b :: bs =>
    if a.toNat < b.toNat then true
    else if b.toNat < a.toNat then false
    else charListLe as bs

/-- Key order for `json.dumps(..., sort_keys=True)`. -/
def keyLe (a b : String) : Bool := charListLe a.data b.data

/-- Insert one entry into a key-sorted association list. -/
def insEntry (e : String × Json) : List (String × Json) → List (String × Json)
  | [] => [e]
  | f :: t => if keyLe e.1 f.1 then e :: f :: t else f :: insEntry e t

/-- Sort the entries of an object by key, as `sort_keys=True` does. -/
def sortEntries : List (String × Json) → List (String × Json)
  | [] => []
  | e :: t => insEntry e (sortEntries t)

/-- JSON string escaping as done by json.dumps (quote, backslash and the
common control characters; the remaining `\uXXXX` escaping of rare control
characters is abstracted, it never changes on equal inputs). -/
def escapeChar (c : Char) : String :=
  if c = '"' then "\\\""
  else if c = '\\' then "\\\\"
  else if c = '\n' then "\\n"
  else if c = '\t' then "\\t"
  else if c = '\r' then "\\r"
  else String.singleton c

/-- Render a JSON string literal. -/
def renderStr (s : String) : String :=
  "\"" ++ String.join (s.data.map escapeChar) ++ "\""

/-- Render a JSON number. Python renders ints and floats through repr;
the embedding uses a deterministic injective rendering of the rational,
which is all the digesting code depends on. -/
def renderNum (q : ℚ) : String :=
  if q.den = 1 then toString q.num else toString q.num ++ "/" ++ toString q.den

/-- Fueled body of `json.dumps(value, sort_keys=True)` (default
separators ", " and ": "; keys sorted at every level). The fuel bounds the
nesting depth; `dumps` below supplies fuel exceeding the depth of its
argument, so the fuel-exhausted branch is unreachable. -/
def dumpsV : Nat → Json → String
  | 0, _ => ""
  | fuel + 1, j =>
    match j with
    | Json.null => "null"
    | Json.bool true => "true"
    | Json.bool false => "false"
    | Json.num q => renderNum q
    | Json.str s => renderStr s
    | Json.arr es =>
        "[" ++ String.intercalate ", " (es.map (dumpsV fuel)) ++ "]"
    | Json.obj kvs =>
        "\x7b" ++
          String.intercalate ", "
            ((sortEntries kvs).map (fun e => renderStr e.1 ++ ": " ++ dumpsV fuel e.2)) ++
          "\x7d"

mutual

/-- Size of a JSON value, used only to supply enough fuel to `dumpsV`. -/
def jsizeV : Json → Nat
  | Json.arr es => jsizeL es + 1
  | Json.obj kvs => jsizeO kvs + 1
  | _ => 1

/-- Size of a JSON array body. -/
def jsizeL : List Json → Nat
  | [] => 0
  | x :: t => jsizeV x + jsizeL t + 1

/-- Size of a JSON object body. -/
def jsizeO : List (String × Json) → Nat
  | [] => 0
  | (_, v) :: t => jsizeV v + jsizeO t + 1

end

/-- `json.dumps(value, sort_keys=True)`. -/
def dumps (j : Json) : String := dumpsV (jsizeV j + 1) j

/-- The dict that DuplicateDetector hashes for the content fingerprint:
`input_data.copy()` with `lot_id` and `floor_plan_image` popped
(energy_gauge_automation.py lines 588-591 and 611-613). -/
def stripContent (r : List (String × Json)) : List (String × Json) :=
  popKey (popKey r "lot_id") "floor_plan_image"

/-- Content fingerprint: `hashlib.md5(json.dumps(content, sort_keys=True)
.encode()).hexdigest()`, with the digest function `md5` a parameter. -/
def contentHash (md5 : String → String) (r : List (String × Json)) : String :=
  md5 (dumps (Json.obj (stripContent r)))

/-- DuplicateDetector.is_duplicate (lines 574-599). `enabled` is the
`duplicate_detection_enabled` config flag; `fsExists` is os.path.exists;
`fileHash` is calculate_hash; `hs` is self.processed_hashes. The early
`return True` on an image-hash hit followed by the content-hash check is
Boolean disjunction. A non-string floor_plan_image value would raise in
Python (os.path.exists on it) and is outside the modelled domain; records
produced by load_json use string paths. -/
def is_duplicate (enabled : Bool) (md5 : String → String) (fsExists : String → Bool)
    (fileHash : String → String) (r : List (String × Json)) (hs : Finset String) : Bool :=
  if !enabled then false
  else
    let imageHit :=
      match getKey r "floor_plan_image" with
      | some (Json.str p) => !(p == "") && fsExists p && decide (fileHash p ∈ hs)
      | _ => false
    imageHit || decide (contentHash md5 r ∈ hs)

/-- DuplicateDetector.mark_as_processed (lines 601-619): insert the image
fingerprint when the floor-plan file exists and its hash is non-empty,
always insert the content fingerprint, then persist via
save_processed_hashes (which does not change the in-memory set). -/
def mark_as_processed (md5 : String → String) (fsExists : String → Bool)
    (fileHash : String → String) (r : List (String × Json)) (hs : Finset String) :
    Finset String :=
  let hs1 :=
    match getKey r "floor_plan_image" with
    | some (Json.str p) =>
        if !(p == "") && fsExists p then
          (if !(fileHash p == "") then insert (fileHash p) hs else hs)
        else hs
    | _ => hs
  insert (contentHash md5 r) hs1

/-- DuplicateDetector.save_processed_hashes (lines 553-560): returns the
unchanged in-memory set together with the JSON payload written to the
hash file (set iteration order abstracted as sorted). Write failures are
caught and logged, leaving the set untouched either way. -/
def save_processed_hashes (hs : Finset String) : Finset String × String :=
  (hs,
    "\x7b\"hashes\": [" ++
      String.intercalate ", " ((hs.sort (· ≤ ·)).map renderStr) ++ "]\x7d")

/-- OCRProcessor.extract_with_tesseract (lines 380-407). `available` is
self.tesseract_available; `run` is the observable outcome of the try
block's backend calls: `none` when any internal exception occurs (missing
binary, unreadable image, ...), `some (confs, text)` when
pytesseract returns per-token confidences `data['conf']` and the page
text. Always returns a pair; never raises. -/
def extract_with_tesseract (available : Bool) (run : Option (List Int × String)) :
    String × ℚ :=
  if !available then ("", 0)
  else
    match run with
    | none => ("", 0)
    | some (confs, text) =>
        let cs := confs.filter (fun c => decide (c > 0))
        let avg : ℚ := if cs.length = 0 then 0 else (cs.sum : ℚ) / (cs.length : ℚ)
        (text.trim, avg / 100)

/-- OCRProcessor.extract_with_easyocr (lines 409-435). `available` is
self.easyocr_available, `readerOk` is `self.easyocr_reader` being set;
`run` is the outcome of `readtext`: `none` on an internal exception,
otherwise the list of detected regions as (text, confidence) pairs
(bounding boxes are unused by the code). -/
def extract_with_easyocr (available : Bool) (readerOk : Bool)
    (run : Option (List (String × ℚ))) : String × ℚ :=
  if !available || !readerOk then ("", 0)
  else
    match run with
    | none => ("", 0)
    | some [] => ("", 0)
    | some rs =>
        let combined := String.intercalate " " (rs.map (fun e => e.1))
        let avg : ℚ :=
          if rs.length = 0 then 0 else (rs.map (fun e => e.2)).sum / (rs.length : ℚ)
        (combined.trim, avg)

/-- The dict returned by OCRProcessor.extract_text. -/
structure OcrResult where
  text : String
  confidence : ℚ
  method : String
  success : Bool
deriving DecidableEq

/-- OCRProcessor.extract_text (lines 437-487): multi-engine extraction
with confidence-threshold fallback. `imageExists` is the
os.path.exists check on the image path; `tess` and `easy` are the engine
adapter outcomes (text, confidence); `threshold` is
config 'ocr_confidence_threshold'. Python's truthiness test on the text
is the non-emptiness test. -/
def extract_text (imageExists : Bool) (threshold : ℚ)
    (tess easy : String × ℚ) : OcrResult :=
  if !imageExists then ⟨"", 0, "none", false⟩
  else if tess.2 ≥ threshold ∧ tess.1 ≠ "" then ⟨tess.1, tess.2, "tesseract", true⟩
  else if easy.2 ≥ threshold ∧ easy.1 ≠ "" then ⟨easy.1, easy.2, "easyocr", true⟩
  else if tess.2 ≥ easy.2 then ⟨tess.1, tess.2, "tesseract", decide (tess.2 ≥ threshold)⟩
  else ⟨easy.1, easy.2, "easyocr", decide (easy.2 ≥ threshold)⟩

/-- Regular expressions over characters, covering exactly the constructs
used by the field patterns in extract_field_from_text: character classes,
concatenation, and the greedy quantifiers `*` and `?` (`+` is
concatenation with a star). -/
inductive Re where
  | eps : Re
  | cls : (Char → Bool) → Re
  | cat : Re → Re → Re
  | star : Re → Re
  | opt : Re → Re

/-- `x+` as `x x*`; same greedy backtracking order as Python's `+`. -/
def plusRe (r : Re) : Re := Re.cat r (Re.star r)

/-- A literal string as a regex. -/
def litRe (s : String) : Re :=
  s.data.foldr (fun c acc => Re.cat (Re.cls (fun x => x == c)) acc) Re.eps

/-- Python `\s` (ASCII range). -/
def wsP (c : Char) : Bool :=
  c == ' ' || c == '\t' || c == '\n' || c == '\r' || c == '\x0b' || c == '\x0c'

/-- Python `[:\s]`. -/
def colonWsP (c : Char) : Bool := c == ':' || wsP c

/-- Python `[0-9]`. -/
def digitP (c : Char) : Bool := c.isDigit

/-- Python `[0-9,]`. -/
def digitCommaP (c : Char) : Bool := c.isDigit || c == ','

/-- Python `\.`. -/
def dotP (c : Char) : Bool := c == '.'

/-- Structural size of a regex, used to supply enough fuel to `mat`. -/
def reSize : Re → Nat
  | Re.eps => 1
  | Re.cls _ => 1
  | Re.cat a b => reSize a + reSize b + 1
  | Re.star a => reSize a + 1
  | Re.opt a => reSize a + 1

/-- Backtracking matcher: all ways `re` can match a prefix of `s`, each as
(consumed characters, remaining characters), in Python's backtracking
priority order (greedy quantifiers try longer matches first; a star
iteration is forced to consume at least one character, as Python does to
avoid empty-loop divergence). Structurally recursive on the fuel, which
bounds the depth of the recursion; every nested call either shrinks the
regex or shrinks the input on a star re-entry, so depth never exceeds
`(reSize re + 1) * (s.length + 2)` and the `mat 0` branch is unreachable
for the fuel supplied by `matchAt`. -/
def mat : Nat → Re → List Char → List (List Char × List Char)
  | 0, _, _ => []
  | fuel + 1, re, s =>
    match re, s with
    | Re.eps, s => [([], s)]
    | Re.cls _, [] => []
    | Re.cls p, c :: rest => if p c then [([c], rest)] else []
    | Re.cat a b, s =>
        (mat fuel a s).flatMap (fun pr =>
          (mat fuel b pr.2).map (fun qr => (pr.1 ++ qr.1, qr.2)))
    | Re.star a, s =>
        (((mat fuel a s).filter (fun pr => !pr.1.isEmpty)).flatMap (fun pr =>
          (mat fuel (Re.star a) pr.2).map (fun qr => (pr.1 ++ qr.1, qr.2))))
          ++ [([], s)]
    | Re.opt a, s => mat fuel a s ++ [([], s)]

/-- One field pattern: the part before the capture group, the group, and
the part after it (every pattern in the table has exactly one group). -/
structure Pat where
  pre : Re
  grp : Re
  post : Re

/-- Try the pattern at the current position; on success return the text
captured by the group of the first match in backtracking order, exactly
the group Python's re module reports. -/
def matchAt (p : Pat) (s : List Char) : Option (List Char) :=
  let fuel := (reSize p.pre + reSize p.grp + reSize p.post + 2) * (s.length + 2)
  ((mat fuel p.pre s).flatMap (fun pr =>
    (mat fuel p.grp pr.2).flatMap (fun gr =>
      (mat fuel p.post gr.2).map (fun _ => gr.1)))).head?

/-- `re.search`: try successive start positions left to right, returning
the group of the leftmost match. -/
def searchPat (p : Pat) (s : List Char) : Option (List Char) :=
  match matchAt p s with
  | some g => some g
  | none =>
    match s with
    | [] => none
    | _ :: t => searchPat p t

/-- Split a digit string of the shape `[0-9]* (. [0-9]*)?` into integer
and fraction digits; `none` when the string is not of that shape or holds
no digit at all. This is Python float() on the strings the field patterns
can capture (after comma removal they hold only digits and at most one
dot; signs, exponents and whitespace cannot occur). float() raising
ValueError is the `none` case. -/
def splitNum (cs : List Char) : Option (List Char × List Char) :=
  let intPart := cs.takeWhile Char.isDigit
  let rest := cs.dropWhile Char.isDigit
  match rest with
  | [] => if intPart.isEmpty then none else some (intPart, [])
  | c :: rest2 =>
    if c == '.' then
      let fracPart := rest2.takeWhile Char.isDigit
      let rest3 := rest2.dropWhile Char.isDigit
      if rest3.isEmpty && (!intPart.isEmpty || !fracPart.isEmpty) then
        some (intPart, fracPart)
      else none
    else none

/-- Numeric value of a digit list. -/
def natOfDigits (cs : List Char) : Nat :=
  cs.foldl (fun n c => 10 * n + (c.toNat - 48)) 0

/-- Drop trailing zero digits of a fraction. -/
def stripTrailZeros (cs : List Char) : List Char :=
  ((cs.reverse).dropWhile (fun c => c == '0')).reverse

/-- Python `str(float(value))` on the digit strings captured by the field
patterns: parse, then print the double back; an integral value prints
with a trailing ".0". Values beyond double precision (more than about 16
significant digits) or outside plain-decimal printing range are not
modelled; the captured building fields are far below that. Returns `none`
when float() raises ValueError. -/
def pyStrFloat (s : String) : Option String :=
  match splitNum s.data with
  | none => none
  | some (ip, fp) =>
    let fr := stripTrailZeros fp
    if fr.isEmpty then some (toString (natOfDigits ip) ++ ".0")
    else some (toString (natOfDigits ip) ++ "." ++ String.mk fr)

/-- Python `float(s)` as a rational, on the same digit strings. -/
def pyFloatQ (s : String) : Option ℚ :=
  (splitNum s.data).map (fun pr =>
    (natOfDigits pr.1 : ℚ) + (natOfDigits pr.2 : ℚ) / (10 : ℚ) ^ pr.2.length)

/-- Loop body of extract_field_from_text (lines 520-527): search the
pattern, strip commas from the captured group, and return
`str(float(value))`, or `none` so the loop moves to the next pattern. -/
def tryPattern (p : Pat) (s : List Char) : Option String :=
  match searchPat p s with
  | none => none
  | some g => pyStrFloat (String.mk (g.filter (fun c => !(c == ','))))

/-- `[0-9,]+\.?[0-9]*` (the capture group of the floor-area patterns). -/
def numGroupC : Re :=
  Re.cat (plusRe (Re.cls digitCommaP))
    (Re.cat (Re.opt (Re.cls dotP)) (Re.star (Re.cls digitP)))

/-- `[0-9]+\.?[0-9]*` (the capture group of the remaining patterns). -/
def numGroup : Re :=
  Re.cat (plusRe (Re.cls digitP))
    (Re.cat (Re.opt (Re.cls dotP)) (Re.star (Re.cls digitP)))

/-- `\s*`. -/
def sws : Re := Re.star (Re.cls wsP)

/-- `[:\s]*`. -/
def scw : Re := Re.star (Re.cls colonWsP)

/-- The three conditioned_floor_area patterns (lines 495-499). -/
def cfaPats : List Pat :=
  [⟨Re.cat (litRe "floor") (Re.cat sws (Re.cat (litRe "area") scw)), numGroupC, Re.eps⟩,
   ⟨Re.cat (litRe "area") scw, numGroupC,
     Re.cat sws (Re.cat (litRe "sq") (Re.cat sws (litRe "ft")))⟩,
   ⟨Re.eps, numGroupC, Re.cat sws (Re.cat (litRe "sq") (Re.cat sws (litRe "ft")))⟩]

/-- The two tonnage patterns (lines 500-503). -/
def tonnagePats : List Pat :=
  [⟨Re.eps, numGroup, Re.cat sws (litRe "ton")⟩,
   ⟨Re.cat (litRe "tonnage") scw, numGroup, Re.eps⟩]

/-- The two seer patterns (lines 504-507). -/
def seerPats : List Pat :=
  [⟨Re.cat (litRe "seer") scw, numGroup, Re.eps⟩,
   ⟨Re.eps, numGroup, Re.cat sws (litRe "seer")⟩]

/-- The two u_factor patterns (lines 508-511). -/
def uFactorPats : List Pat :=
  [⟨Re.cat (litRe "u") scw, numGroup, Re.eps⟩,
   ⟨Re.cat (litRe "u-factor") scw, numGroup, Re.eps⟩]

/-- The two shgc patterns (lines 512-515). -/
def shgcPats : List Pat :=
  [⟨Re.cat (litRe "shgc") scw, numGroup, Re.eps⟩,
   ⟨Re.cat (litRe "solar")
      (Re.cat sws (Re.cat (litRe "heat") (Re.cat sws (Re.cat (litRe "gain") scw)))),
    numGroup, Re.eps⟩]

/-- `patterns.get(field_name.lower(), [])` (line 518): the pattern table
keyed by field name, defaulting to the empty list. -/
def patternsFor (s : String) : List Pat :=
  if s = "conditioned_floor_area" then cfaPats
  else if s = "tonnage" then tonnagePats
  else if s = "seer" then seerPats
  else if s = "u_factor" then uFactorPats
  else if s = "shgc" then shgcPats
  else []

/-- OCRProcessor.extract_field_from_text (lines 489-529): try the field's
patterns in order against the lower-cased text; first successfully parsed
numeric value wins, else `none`. -/
def extract_field_from_text (text fieldName : String) : Option String :=
  (patternsFor (pyLower fieldName)).findSome?
    (fun p => tryPattern p (pyLower text).data)

/-- First half of EnergyGaugeAutomation.enhance_data_with_ocr (lines
1227-1234): `building_data = input_data.get('building_data', {})`, then
fill conditioned_floor_area when it is absent or falsy. When the section
is absent, Python mutates a fresh dict that is never stored back, so the
record is unchanged; when present it is mutated in place. A non-dict
section would raise in Python and is outside the modelled domain. The
written value is `float(area)`; the parse cannot fail on the extractor's
output, so its total wrapper defaults to 0. -/
def enhanceBuilding (ocrText : String) (r : List (String × Json)) :
    List (String × Json) :=
  match getKey r "building_data" with
  | some (Json.obj bd) =>
      let bd2 :=
        if truthyKey bd "conditioned_floor_area" then bd
        else
          match extract_field_from_text ocrText "conditioned_floor_area" with
          | some area =>
              setKey bd "conditioned_floor_area" (Json.num ((pyFloatQ area).getD 0))
          | none => bd
      setKey r "building_data" (Json.obj bd2)
  | _ => r

/-- Per-system body of the HVAC loop in enhance_data_with_ocr (lines
1238-1243): fill tonnage when absent or falsy, else leave the system
untouched. -/
def hvStep (ocrText : String) (e : String × Json) : String × Json :=
  match e.2 with
  | Json.obj sd =>
      if truthyKey sd "tonnage" then e
      else
        match extract_field_from_text ocrText "tonnage" with
        | some t => (e.1, Json.obj (setKey sd "tonnage" (Json.num ((pyFloatQ t).getD 0))))
        | none => e
  | _ => e

/-- Second half of enhance_data_with_ocr (lines 1236-1243):
`hvac_data = input_data.get('hvac', {})` and the per-system loop. -/
def enhanceHvac (ocrText : String) (r : List (String × Json)) :
    List (String × Json) :=
  match getKey r "hvac" with
  | some (Json.obj hv) => setKey r "hvac" (Json.obj (hv.map (hvStep ocrText)))
  | _ => r

/-- EnergyGaugeAutomation.enhance_data_with_ocr (lines 1225-1243). -/
def enhance_data_with_ocr (ocrText : String) (r : List (String × Json)) :
    List (String × Json) :=
  enhanceHvac ocrText (enhanceBuilding ocrText r)

/-- QualityIndicator (lines 128-152). Outcome-log timestamps are
abstracted away; entries are (lot_id, status) in append order. -/
structure QualityIndicator where
  data_quality : String
  system_health : String
  current_lot : String
  status_message : String
  processed_lots : List (String × String)

/-- QualityIndicator.__init__. -/
def initQI : QualityIndicator := ⟨"GREEN", "GREEN", "", "", []⟩

/-- QualityIndicator.set_data_quality (lines 138-141). -/
def set_data_quality (qi : QualityIndicator) (status msg : String) : QualityIndicator :=
  { qi with data_quality := pyUpper status,
            status_message := if !(msg == "") then msg else qi.status_message }

/-- QualityIndicator.set_system_health (lines 143-146). -/
def set_system_health (qi : QualityIndicator) (status msg : String) : QualityIndicator :=
  { qi with system_health := pyUpper status,
            status_message := if !(msg == "") then msg else qi.status_message }

/-- QualityIndicator.set_current_lot (lines 148-149). -/
def set_current_lot (qi : QualityIndicator) (lotId : String) : QualityIndicator :=
  { qi with current_lot := lotId }

/-- QualityIndicator.add_processed_lot (lines 151-152). -/
def add_processed_lot (qi : QualityIndicator) (lotId status : String) : QualityIndicator :=
  { qi with processed_lots := qi.processed_lots ++ [(lotId, status)] }

/-- Loop body of EnergyGaugeAutomation.process_all_inputs (lines
1288-1296): bump processed_count on a successful process_single_lot,
failed_count otherwise. The counter pair is (processed_count,
failed_count). -/
def batchStep (procOne : α → Bool) (counts : Nat × Nat) (f : α) : Nat × Nat :=
  if procOne f then (counts.1 + 1, counts.2) else (counts.1, counts.2 + 1)

/-- EnergyGaugeAutomation.process_all_inputs (lines 1271-1311), batch
mode (self.gui is None, so the user-stop break never fires and logging is
the only other effect). `procOne` is process_single_lot's success
outcome per input file; on an empty input list the method returns early
and the indicator is untouched; otherwise the end-of-batch
system_health is set from the failure count. -/
def process_all_inputs (procOne : α → Bool) (files : List α)
    (qi : QualityIndicator) : QualityIndicator :=
  if files.isEmpty then qi
  else
    let counts := files.foldl (batchStep procOne) (0, 0)
    if counts.2 = 0 then
      set_system_health qi "GREEN" "All lots processed successfully"
    else if counts.2 < files.length then
      set_system_health qi "YELLOW" (toString counts.2 ++ " lots failed processing")
    else
      set_system_health qi "RED" "All lots failed processing"

/-- Number of positional parameters (besides self) of
EnergyGaugeAutomation.process_single_lot: `def process_single_lot(self,
input_file: str)` (line 1117). -/
def processSingleLotParamCount : Nat := 1

/-- Number of positional arguments (besides self) that
process_multiple_lots_parallel passes to it:
`executor.submit(self.process_single_lot, lot_id, input_data)`
(line 1354). -/
def parallelSubmitArgCount : Nat := 2

/-- Outcome of one lot as recorded in the parallel results list. -/
inductive LotStatus where
  | success : LotStatus
  | failed : String → LotStatus
deriving DecidableEq

/-- One submitted unit of work in process_multiple_lots_parallel (lines
1354 and 1369-1399), modelling Python call semantics: invoking a method
with a positional-argument count different from its parameter count
raises TypeError before any of the body runs; future.result() re-raises
it and the except branch records the lot as failed. With matching counts
the worker would run the per-record pipeline `pipeline` and record its
Boolean outcome. -/
def parallelUnitOutcome (pipeline : List (String × Json) → Bool)
    (record : List (String × Json)) : LotStatus :=
  if parallelSubmitArgCount = processSingleLotParamCount then
    (if pipeline record then LotStatus.success else LotStatus.failed "processing error")
  else LotStatus.failed "TypeError"

theorem getKey_setKey_self (l : List (String × Json)) (k : String) (v : Json) :
    getKey (setKey l k v) k = some v := by
  induction l with
  | nil => simp [setKey, getKey]
  | cons e t ih =>
    by_cases h : e.1 == k
    · simp [setKey, h, getKey]
    · simp [setKey, h, getKey, ih]

theorem getKey_setKey_other (l : List (String × Json)) (k k2 : String) (v : Json)
    (hne : k2 ≠ k) : getKey (setKey l k v) k2 = getKey l k2 := by
  induction l with
  | nil =>
    simp [setKey, getKey]
    intro h
    exact absurd h.symm hne
  | cons e t ih =>
    by_cases h : e.1 == k
    · have hk : e.1 = k := by simpa using h
      have h2 : ¬(k == k2) := by simpa using fun hkk => hne hkk.symm
      have h3 : ¬(e.1 == k2) := by
        simpa [hk] using fun hkk => hne hkk.symm
      simp [setKey, h, getKey, h2, h3, ih]
    · simp [setKey, h, getKey, ih]

theorem findSome_eq_none_of_all_none {α β : Type} (f : α → Option β) (l : List α)
    (h : ∀ p ∈ l, f p = none) : l.findSome? f = none := by
  induction l with
  | nil => rfl
  | cons x t ih =>
    have hx : f x = none := h x (by simp)
    simp [List.findSome?, hx]
    intro p hp
    exact h p (by simp [hp])

theorem batch_fold_counts (procOne : α → Bool) (files : List α) (a b : Nat) :
    (files.foldl (batchStep procOne) (a, b)).2 =
      b + (files.filter (fun x => !procOne x)).length := by
  induction files generalizing a b with
  | nil => simp
  | cons f t ih =>
    by_cases h : procOne f
    · simp [batchStep, h, ih]
    · simp only [List.foldl_cons, batchStep, h, if_false, List.filter_cons]
      simp [h, ih]
      omega

theorem getKey_enhanceBuilding_other (ocrText : String) (r : List (String × Json))
    (k : String) (hne : k ≠ "building_data") :
    getKey (enhanceBuilding ocrText r) k = getKey r k := by
  unfold enhanceBuilding
  split
  · rw [getKey_setKey_other _ _ _ _ hne]
  · rfl

theorem getKey_enhanceHvac_other (ocrText : String) (r : List (String × Json))
    (k : String) (hne : k ≠ "hvac") :
    getKey (enhanceHvac ocrText r) k = getKey r k := by
  unfold enhanceHvac
  split
  · rw [getKey_setKey_other _ _ _ _ hne]
  · rfl

/-- C1: with duplicate detection enabled, after mark_as_processed(r),
is_duplicate returns true on every record that differs from r at most in
the value of its lot_id key (same remaining content, same floor-plan
image or none): the content fingerprint is computed over the record with
lot_id and floor_plan_image removed and keys sorted, so the marked
fingerprint is found regardless of the identifier. The hypothesis says
exactly that the two records agree outside the lot_id entry. -/
theorem dup_mark_then_check_ignores_lot_id (md5 : String → String)
    (fsExists : String → Bool) (fileHash : String → String)
    (r r2 : List (String × Json)) (hs : Finset String)
    (h : popKey r "lot_id" = popKey r2 "lot_id") :
    is_duplicate true md5 fsExists fileHash r2
      (mark_as_processed md5 fsExists fileHash r hs) = true := by
  have hc : contentHash md5 r2 = contentHash md5 r := by
    unfold contentHash stripContent
    rw [h]
  have hmem : contentHash md5 r2 ∈ mark_as_processed md5 fsExists fileHash r hs := by
    rw [hc]
    unfold mark_as_processed
    exact Finset.mem_insert_self _ _
  unfold is_duplicate
  simp only [Bool.not_true, Bool.false_eq_true, if_false]
  rw [decide_eq_true hmem]
  exact Bool.or_true _

/-- Witness for C1 at a concrete pair of records differing only in
lot_id. -/
theorem dup_mark_then_check_ignores_lot_id_witness :
    is_duplicate true (fun s => s) (fun _ => false) (fun _ => "")
      [("lot_id", Json.str "Lot102"), ("area", Json.num 1)]
      (mark_as_processed (fun s => s) (fun _ => false) (fun _ => "")
        [("lot_id", Json.str "Lot101"), ("area", Json.num 1)] ∅) = true :=
  dup_mark_then_check_ignores_lot_id (fun s => s) (fun _ => false) (fun _ => "")
    [("lot_id", Json.str "Lot101"), ("area", Json.num 1)]
    [("lot_id", Json.str "Lot102"), ("area", Json.num 1)] ∅ (by rfl)

/-- C8: the fingerprint set is append-only within a run. mark_as_processed
only inserts, save_processed_hashes leaves the in-memory set unchanged
(returning it with the serialized payload), and is_duplicate is a pure
read (its embedding returns only a Bool, faithfully to the method body,
which never assigns self.processed_hashes). -/
theorem fingerprint_set_append_only (md5 : String → String)
    (fsExists : String → Bool) (fileHash : String → String)
    (r : List (String × Json)) (hs : Finset String) :
    hs ⊆ mark_as_processed md5 fsExists fileHash r hs ∧
      (save_processed_hashes hs).1 = hs := by
  constructor
  · unfold mark_as_processed
    refine Finset.Subset.trans ?_ (Finset.subset_insert _ _)
    split
    · split
      · split
        · exact Finset.subset_insert _ _
        · exact Finset.Subset.refl _
      · exact Finset.Subset.refl _
    · exact Finset.Subset.refl _
  · rfl

/-- C2 counterexample: the claim as stated is false. With threshold 1,
Engine A's confidence 2 ≥ 1 but its text empty, and Engine B returning
("hi", 3), extract_text returns Engine B's result tagged easyocr, not
Engine A's tagged tesseract: the code also requires Engine A's text to
be non-empty (line 448, `tesseract_conf >= confidence_threshold and
tesseract_text`). -/
theorem multi_engine_accept_counterexample :
    ((2 : ℚ) ≥ 1) ∧
      extract_text true 1 ("", 2) ("hi", 3) = ⟨"hi", 3, "easyocr", true⟩ := by
  constructor
  · decide
  · decide

/-- C2 amended: for every existing image input and every pair of engine
outcomes where Engine A's confidence is at least the threshold AND
Engine A's text is non-empty, extract_text returns Engine A's result
tagged tesseract with success true, regardless of Engine B's outcome
(the result does not depend on the Engine B parameter at all, so Engine B
is never consulted in that case). -/
theorem multi_engine_accepts_engine_a (threshold aConf : ℚ) (aText : String)
    (easy : String × ℚ) (h1 : aConf ≥ threshold) (h2 : aText ≠ "") :
    extract_text true threshold (aText, aConf) easy =
      ⟨aText, aConf, "tesseract", true⟩ := by
  unfold extract_text
  simp only [Bool.not_true, Bool.false_eq_true, if_false]
  rw [if_pos ⟨h1, h2⟩]

/-- Witness for C2's amended theorem at a concrete accepted outcome. -/
theorem multi_engine_accepts_engine_a_witness :
    extract_text true 1 ("ok", 2) ("", 0) = ⟨"ok", 2, "tesseract", true⟩ :=
  multi_engine_accepts_engine_a 1 2 "ok" ("", 0) (by decide) (by decide)

/-- C3: when both engine outcomes fall below the threshold, extract_text
returns the result of the engine with the higher confidence (Engine A on
ties, since the code compares with `tesseract_conf >= easyocr_conf`),
and the success flag is false in both sub-cases. -/
theorem multi_engine_best_of_low_pair (threshold : ℚ) (tess easy : String × ℚ)
    (ha : tess.2 < threshold) (hb : easy.2 < threshold) :
    (easy.2 ≤ tess.2 →
      extract_text true threshold tess easy = ⟨tess.1, tess.2, "tesseract", false⟩) ∧
    (tess.2 < easy.2 →
      extract_text true threshold tess easy = ⟨easy.1, easy.2, "easyocr", false⟩) := by
  have hna : ¬(tess.2 ≥ threshold ∧ tess.1 ≠ "") := fun hc => absurd hc.1 (not_le.mpr ha)
  have hnb : ¬(easy.2 ≥ threshold ∧ easy.1 ≠ "") := fun hc => absurd hc.1 (not_le.mpr hb)
  have hda : decide (tess.2 ≥ threshold) = false :=
    decide_eq_false (not_le.mpr ha)
  have hdb : decide (easy.2 ≥ threshold) = false :=
    decide_eq_false (not_le.mpr hb)
  constructor
  · intro hle
    unfold extract_text
    simp only [Bool.not_true, Bool.false_eq_true, if_false]
    rw [if_neg hna, if_neg hnb, if_pos hle, hda]
  · intro hlt
    unfold extract_text
    simp only [Bool.not_true, Bool.false_eq_true, if_false]
    rw [if_neg hna, if_neg hnb, if_neg (not_le.mpr hlt), hdb]

/-- Witness for C3 at concrete below-threshold outcomes (tie broken in
favour of Engine A is exercised via the first conjunct with equal case
covered by the ≤ hypothesis). -/
theorem multi_engine_best_of_low_pair_witness :
    ((1 : ℚ) < 2) ∧ ((0 : ℚ) < 2) ∧
      extract_text true 2 ("x", 1) ("y", 0) = ⟨"x", 1, "tesseract", false⟩ :=
  ⟨by decide, by decide,
    (multi_engine_best_of_low_pair 2 ("x", 1) ("y", 0) (by decide) (by decide)).1
      (by decide)⟩

/-- C4: the concrete round trip — text "Floor Area: 2,402 sq ft" and
field conditioned_floor_area give "2402.0" (comma stripped, parsed as a
float, first matching pattern wins) — and, for every text on which no
pattern of the requested field yields a parseable number (its loop body
returns none, by match failure or parse failure), the extractor returns
none. -/
theorem field_extraction_round_trip :
    extract_field_from_text "Floor Area: 2,402 sq ft" "conditioned_floor_area" =
      some "2402.0" ∧
    ∀ (text fld : String),
      (∀ p ∈ patternsFor (pyLower fld), tryPattern p (pyLower text).data = none) →
      extract_field_from_text text fld = none := by
  constructor
  · decide
  · intro text fld h
    unfold extract_field_from_text
    exact findSome_eq_none_of_all_none _ _ h

/-- Witness for C4 at the concrete inputs of the claim: the round trip,
and a text with no numeric pattern for the field. -/
theorem field_extraction_round_trip_witness :
    extract_field_from_text "Floor Area: 2,402 sq ft" "conditioned_floor_area" =
      some "2402.0" ∧
    extract_field_from_text "hello" "conditioned_floor_area" = none :=
  ⟨field_extraction_round_trip.1,
    field_extraction_round_trip.2 "hello" "conditioned_floor_area" (by decide)⟩

/-- C10: a field name whose lower-cased form is not one of the five
supported fields maps to the empty pattern list, so
extract_field_from_text returns none for every input text. -/
theorem unknown_field_yields_none (fieldName text : String)
    (h : pyLower fieldName ∉
      (["conditioned_floor_area", "tonnage", "seer", "u_factor", "shgc"] :
        List String)) :
    extract_field_from_text text fieldName = none := by
  unfold extract_field_from_text patternsFor
  split_ifs with h1 h2 h3 h4 h5
  · exact absurd (by simp [h1]) h
  · exact absurd (by simp [h2]) h
  · exact absurd (by simp [h3]) h
  · exact absurd (by simp [h4]) h
  · exact absurd (by simp [h5]) h
  · rfl

/-- Witness for C10 at a concrete unsupported field name and a text that
does contain numeric phrasing. -/
theorem unknown_field_yields_none_witness :
    extract_field_from_text "floor area: 2,402 sq ft" "unknown_field" = none :=
  unknown_field_yields_none "unknown_field" "floor area: 2,402 sq ft" (by decide)

/-- C5: at the end of a sequential batch over n ≥ 1 input files with f
recorded failures, system_health is GREEN if f = 0, YELLOW if 0 < f < n,
RED if f = n. -/
theorem batch_health_aggregation (procOne : α → Bool) (files : List α)
    (qi : QualityIndicator) (hne : files ≠ []) :
    (((files.filter (fun x => !procOne x)).length = 0) →
      (process_all_inputs procOne files qi).system_health = "GREEN") ∧
    ((0 < (files.filter (fun x => !procOne x)).length ∧
        (files.filter (fun x => !procOne x)).length < files.length) →
      (process_all_inputs procOne files qi).system_health = "YELLOW") ∧
    (((files.filter (fun x => !procOne x)).length = files.length) →
      (process_all_inputs procOne files qi).system_health = "RED") := by
  cases files with
  | nil => exact absurd rfl hne
  | cons f t =>
    have hcnt : ((f :: t).foldl (batchStep procOne) (0, 0)).2 =
        ((f :: t).filter (fun x => !procOne x)).length := by
      simpa using batch_fold_counts procOne (f :: t) 0 0
    refine ⟨?_, ?_, ?_⟩
    · intro h0
      unfold process_all_inputs
      simp only [List.isEmpty_cons, Bool.false_eq_true, if_false]
      rw [hcnt, if_pos h0]
      rfl
    · intro hy
      unfold process_all_inputs
      simp only [List.isEmpty_cons, Bool.false_eq_true, if_false]
      rw [hcnt, if_neg (by omega), if_pos hy.2]
      rfl
    · intro hr
      unfold process_all_inputs
      simp only [List.isEmpty_cons, Bool.false_eq_true, if_false]
      have hn : 0 < (f :: t).length := by simp
      rw [hcnt, if_neg (by omega), if_neg (by omega)]
      rfl

/-- Witness for C5: a batch of five files with two failures ends YELLOW. -/
theorem batch_health_aggregation_witness :
    (([0, 1, 2, 3, 4] : List Nat) ≠ []) ∧
      (process_all_inputs (fun x => decide (x ≤ 2)) [0, 1, 2, 3, 4]
        initQI).system_health = "YELLOW" :=
  ⟨by decide,
    (batch_health_aggregation (fun x => decide (x ≤ 2)) [0, 1, 2, 3, 4] initQI
      (by decide)).2.1 (by decide)⟩

/-- C6: OCR enrichment never overwrites an existing truthy value. For
every record and OCR text, a conditioned_floor_area already present and
truthy in building_data keeps its original value, and every HVAC system
entry whose tonnage is present and truthy is left entirely unchanged. -/
theorem ocr_enrichment_never_overwrites (ocrText : String)
    (r : List (String × Json)) :
    (∀ bd v, getKey r "building_data" = some (Json.obj bd) →
      getKey bd "conditioned_floor_area" = some v → jTruthy v = true →
      ∃ bd2, getKey (enhance_data_with_ocr ocrText r) "building_data" =
          some (Json.obj bd2) ∧
        getKey bd2 "conditioned_floor_area" = some v) ∧
    (∀ hv sid sd, getKey r "hvac" = some (Json.obj hv) →
      (sid, Json.obj sd) ∈ hv → truthyKey sd "tonnage" = true →
      ∃ hv2, getKey (enhance_data_with_ocr ocrText r) "hvac" =
          some (Json.obj hv2) ∧
        (sid, Json.obj sd) ∈ hv2) := by
  constructor
  · intro bd v h1 h2 h3
    have htr : truthyKey bd "conditioned_floor_area" = true := by
      unfold truthyKey
      rw [h2]
      exact h3
    have hb : getKey (enhanceBuilding ocrText r) "building_data" =
        some (Json.obj bd) := by
      unfold enhanceBuilding
      simp only [h1, htr, if_true]
      exact getKey_setKey_self _ _ _
    refine ⟨bd, ?_, h2⟩
    unfold enhance_data_with_ocr
    rw [getKey_enhanceHvac_other _ _ _ (by decide)]
    exact hb
  · intro hv sid sd hh hmem htr
    have hh1 : getKey (enhanceBuilding ocrText r) "hvac" = some (Json.obj hv) := by
      rw [getKey_enhanceBuilding_other _ _ _ (by decide)]
      exact hh
    unfold enhance_data_with_ocr enhanceHvac
    simp only [hh1]
    refine ⟨hv.map (hvStep ocrText), getKey_setKey_self _ _ _, ?_⟩
    have hstep : hvStep ocrText (sid, Json.obj sd) = (sid, Json.obj sd) := by
      unfold hvStep
      simp [htr]
    rw [← hstep]
    exact List.mem_map_of_mem _ hmem

/-- Witness for C6 at a concrete record with truthy
conditioned_floor_area and tonnage, against a text that would extract
different values for both fields. -/
theorem ocr_enrichment_never_overwrites_witness :
    (∃ bd2,
      getKey (enhance_data_with_ocr "floor area: 9,999 sq ft and 5 ton"
          [("lot_id", Json.str "L"),
           ("building_data", Json.obj [("conditioned_floor_area", Json.num 2402)]),
           ("hvac", Json.obj [("system1", Json.obj [("tonnage", Json.num 3)])])])
        "building_data" = some (Json.obj bd2) ∧
      getKey bd2 "conditioned_floor_area" = some (Json.num 2402)) ∧
    (∃ hv2,
      getKey (enhance_data_with_ocr "floor area: 9,999 sq ft and 5 ton"
          [("lot_id", Json.str "L"),
           ("building_data", Json.obj [("conditioned_floor_area", Json.num 2402)]),
           ("hvac", Json.obj [("system1", Json.obj [("tonnage", Json.num 3)])])])
        "hvac" = some (Json.obj hv2) ∧
      ("system1", Json.obj [("tonnage", Json.num 3)]) ∈ hv2) :=
  ⟨(ocr_enrichment_never_overwrites "floor area: 9,999 sq ft and 5 ton"
      [("lot_id", Json.str "L"),
       ("building_data", Json.obj [("conditioned_floor_area", Json.num 2402)]),
       ("hvac", Json.obj [("system1", Json.obj [("tonnage", Json.num 3)])])]).1
    [("conditioned_floor_area", Json.num 2402)] (Json.num 2402) rfl rfl (by decide),
   (ocr_enrichment_never_overwrites "floor area: 9,999 sq ft and 5 ton"
      [("lot_id", Json.str "L"),
       ("building_data", Json.obj [("conditioned_floor_area", Json.num 2402)]),
       ("hvac", Json.obj [("system1", Json.obj [("tonnage", Json.num 3)])])]).2
    [("system1", Json.obj [("tonnage", Json.num 3)])] "system1"
    [("tonnage", Json.num 3)] rfl (by simp) (by decide)⟩

/-- C7: the engine adapters are total and degrade to ("", 0.0) on every
failure path: Engine A when unavailable or when its try block raises;
Engine B when unavailable, when its reader is unset, when its try block
raises, and when no regions are detected. (Totality itself is by
construction: both embeddings are total Lean functions, as the Python
bodies catch every exception.) -/
theorem adapters_return_empty_on_failure :
    (∀ run, extract_with_tesseract false run = ("", 0)) ∧
    (extract_with_tesseract true none = ("", 0)) ∧
    (∀ readerOk run, extract_with_easyocr false readerOk run = ("", 0)) ∧
    (∀ available run, extract_with_easyocr available false run = ("", 0)) ∧
    (extract_with_easyocr true true none = ("", 0)) ∧
    (extract_with_easyocr true true (some []) = ("", 0)) := by
  refine ⟨fun run => rfl, rfl, fun readerOk run => rfl, fun available run => ?_,
    rfl, rfl⟩
  cases available <;> rfl

/-- C9: the unit of work submitted by process_multiple_lots_parallel can
never run the per-record pipeline: the submit call passes two positional
arguments to the one-parameter process_single_lot, so every worker raises
TypeError and every record's outcome is failed, for every pipeline
behaviour and every record — the parallel path does not refine the
sequential one. -/
theorem parallel_unit_always_fails :
    parallelSubmitArgCount ≠ processSingleLotParamCount ∧
    ∀ (pipeline : List (String × Json) → Bool) (record : List (String × Json)),
      parallelUnitOutcome pipeline record = LotStatus.failed "TypeError" :=
  ⟨by decide, fun pipeline record => rfl⟩

end EG
